import Mathlib

/-!
Verification of the real-estate cleaning/geocoding pipeline
(`src/clean_data.py`, `src/dashboard.py`, `app.py`, `immo_gps.py`).

The Python code is shallowly embedded: dataframes become lists of records,
floats become exact rationals (`ℚ`), nullable cells become `Option`,
the Nominatim geocoder and the md5 digest are abstract function parameters,
and the specific regular expressions of `clean_data.py` are implemented as
dedicated leftmost-match scanners over `List Char` that reproduce the
behaviour of `re.search` / `re.findall` on those patterns.
-/

/-- ASCII lower-casing of a single character, used to model the
`re.IGNORECASE` flag and `str.lower()` on the ASCII letters that the
patterns of `clean_data.py` mention. -/
def asciiLower (c : Char) : Char :=
  if 'A' ≤ c ∧ c ≤ 'Z' then Char.ofNat (c.toNat + 32) else c

/-- The apostrophe character (U+0027), written by code point. -/
def apos : Char := Char.ofNat 39

/-- The superscript-two character of the area marker `m²` (U+00B2). -/
def sup2 : Char := Char.ofNat 178

/-- Whitespace test modelling the `\s` class of Python regular expressions
(space, tab, newline, carriage return, vertical tab, form feed). -/
def isPySpace (c : Char) : Bool :=
  c == ' ' || c == '\t' || c == '\n' || c == '\r' || c.toNat == 11 || c.toNat == 12

/-- Python `str(x)` on a nullable string: `str(None)` is the text `"None"`. -/
def pyStr : Option String → String
  | none => "None"
  | some s => s

/-- pandas `.astype(str)` on a nullable string cell: a missing value (NaN)
prints as `"nan"`. -/
def pdStr : Option String → String
  | none => "nan"
  | some s => s

/-- Python `str.strip()`: remove whitespace at both ends. -/
def pyStrip (s : String) : String :=
  String.mk (((s.toList.dropWhile isPySpace).reverse.dropWhile isPySpace).reverse)

/-- Python `str.lstrip('- ')`: remove every leading dash or space. -/
def lstripDashSpace (s : String) : String :=
  String.mk (s.toList.dropWhile (fun c => c == '-' || c == ' '))

/-- Substring test on character lists (Python `pat in s`, case sensitive). -/
def listContains (pat : List Char) : List Char → Bool
  | [] => pat.isPrefixOf []
  | c :: cs => pat.isPrefixOf (c :: cs) || listContains pat cs

/-- Python `str.zfill(width)`: left-pad with `'0'` up to `width`, keeping a
leading sign character in front of the padding. -/
def pyZfill (width : ℕ) (s : String) : String :=
  match s.toList with
  | [] => String.mk (List.replicate width '0')
  | c :: rest =>
    if (c = '+' ∨ c = '-') ∧ (c :: rest).length < width then
      String.mk (c :: (List.replicate (width - (c :: rest).length) '0' ++ rest))
    else if (c :: rest).length < width then
      String.mk (List.replicate (width - (c :: rest).length) '0' ++ (c :: rest))
    else s

/-- Value of a decimal digit string (most significant first). -/
def digitsToNat (l : List Char) : ℕ :=
  l.foldl (fun a c => a * 10 + (c.toNat - 48)) 0

/-- Value of one hexadecimal digit (0 for a non-hex character; a genuine
md5 hex digest only contains hex digits). -/
def hexVal (c : Char) : ℕ :=
  if '0' ≤ c ∧ c ≤ '9' then c.toNat - 48
  else if 'a' ≤ c ∧ c ≤ 'f' then c.toNat - 87
  else if 'A' ≤ c ∧ c ≤ 'F' then c.toNat - 55
  else 0

/-- Python `int(h[:8], 16)`: the first eight hex digits of a digest as a
natural number. -/
def hexPrefixVal (h : String) : ℕ :=
  (h.toList.take 8).foldl (fun acc c => acc * 16 + hexVal c) 0

/-- Floor of a rational, written out on the numerator and denominator. -/
def ratFloor (q : ℚ) : ℤ := Int.fdiv q.num q.den

/-- Round-half-to-even on rationals, the rounding used by pandas `.round`. -/
def roundHalfEven (q : ℚ) : ℤ :=
  let f : ℤ := ratFloor q
  let frac : ℚ := q - (f : ℚ)
  if frac < 1/2 then f
  else if 1/2 < frac then f + 1
  else if f % 2 = 0 then f else f + 1

/-- pandas `Series.round(nd)` on an exact rational. -/
def pandasRound (nd : ℕ) (q : ℚ) : ℚ :=
  ((roundHalfEven (q * ((10 ^ nd : ℕ) : ℚ)) : ℚ)) / ((10 ^ nd : ℕ) : ℚ)

/-- Python `max` over a list of numbers (0 on the empty list, which the
callers below never hit). -/
def maxList : List ℚ → ℚ
  | [] => 0
  | x :: xs => xs.foldl max x

/-- Worker for `dedupFirst`: drop the elements already seen. -/
def dedupFirstAux {α : Type} [DecidableEq α] (seen : List α) : List α → List α
  | [] => []
  | a :: l => if a ∈ seen then dedupFirstAux seen l else a :: dedupFirstAux (a :: seen) l

/-- pandas `drop_duplicates` / numpy `unique`-in-order: keep the first
occurrence of each element, preserving order. -/
def dedupFirst {α : Type} [DecidableEq α] (l : List α) : List α := dedupFirstAux [] l

/-! ### The regex scanners of `extraire_surface` (clean_data.py lines 56-127)

Each `p·At` function decides whether the corresponding pattern matches at
the *start* of the given character list and returns the first capture
group; `searchFrom` turns that into the leftmost-occurrence semantics of
`re.search`. -/

/-- Maximal digit prefix and remainder (the greedy `\d+`). -/
def takeDigitsPair (s : List Char) : List Char × List Char :=
  (s.takeWhile Char.isDigit, s.dropWhile Char.isDigit)

/-- Match `(\d+(?:[.,]\d+)?)` at the start: greedy digits, then optionally a
decimal comma/point followed by at least one digit.  Returns the matched
numeral and the remainder. -/
def matchNum (s : List Char) : Option (List Char × List Char) :=
  let p := takeDigitsPair s
  if p.1 = [] then none
  else
    match p.2 with
    | [] => some (p.1, [])
    | c :: cs =>
      if c = '.' ∨ c = ',' then
        let p2 := takeDigitsPair cs
        if p2.1 = [] then some (p.1, c :: cs)
        else some (p.1 ++ c :: p2.1, p2.2)
      else some (p.1, c :: cs)

/-- Match a literal word (given lower-case) case-insensitively at the start,
returning the remainder. -/
def matchLitCI (pat : List Char) (s : List Char) : Option (List Char) :=
  match pat, s with
  | [], rest => some rest
  | _ :: _, [] => none
  | p :: ps, c :: cs => if asciiLower c = p then matchLitCI ps cs else none

/-- Match the area marker `m[²2]` at the start (case-insensitive `m`). -/
def matchMarker : List Char → Option (List Char)
  | c :: d :: r => if asciiLower c = 'm' ∧ (d = sup2 ∨ d = '2') then some r else none
  | _ => none

/-- Priority 1 of `extraire_surface`:
`(\d+(?:[.,]\d+)?)\s*m[²2]\s*(?:carrez|loi carrez)`, IGNORECASE. -/
def p1At (s : List Char) : Option (List Char) :=
  match matchNum s with
  | none => none
  | some (g, r1) =>
    match matchMarker (r1.dropWhile isPySpace) with
    | none => none
    | some r3 =>
      let r4 := r3.dropWhile isPySpace
      match matchLitCI ("carrez".toList) r4 with
      | some _ => some g
      | none =>
        match matchLitCI ("loi carrez".toList) r4 with
        | some _ => some g
        | none => none

/-- Priority 2 of `extraire_surface`:
`(\d+(?:[.,]\d+)?)\s*m[²2]\s*habitables?`, IGNORECASE (the optional final
`s` does not affect whether the pattern matches). -/
def p2At (s : List Char) : Option (List Char) :=
  match matchNum s with
  | none => none
  | some (g, r1) =>
    match matchMarker (r1.dropWhile isPySpace) with
    | none => none
    | some r3 =>
      match matchLitCI ("habitable".toList) (r3.dropWhile isPySpace) with
      | some _ => some g
      | none => none

/-- The introductory words of priority 3, tried in the alternation order of
the pattern `(?:de|d'environ|d'une surface de)`. -/
def litDe : List Char := ['d', 'e']

/-- Literal `d'environ` (apostrophe written by code point). -/
def litDEnviron : List Char := ['d', apos] ++ "environ".toList

/-- Literal `d'une surface de` (apostrophe written by code point). -/
def litDUneSurfaceDe : List Char := ['d', apos] ++ "une surface de".toList

/-- Priority 3 of `extraire_surface`:
`(?:de|d'environ|d'une surface de)\s*(\d+(?:[.,]\d+)?)\s*m[²2]`, IGNORECASE. -/
def p3At (s : List Char) : Option (List Char) :=
  let cont : List Char → Option (List Char) := fun r =>
    match matchNum (r.dropWhile isPySpace) with
    | none => none
    | some (g, r2) =>
      match matchMarker (r2.dropWhile isPySpace) with
      | some _ => some g
      | none => none
  ((matchLitCI litDe s).bind cont) <|>
  ((matchLitCI litDEnviron s).bind cont) <|>
  ((matchLitCI litDUneSurfaceDe s).bind cont)

/-- The bare area pattern `(\d+(?:[.,]\d+)?)\s*m[²2]` of priority 4,
returning the capture group and the remainder after the whole match
(needed by `re.findall`, which scans on from there). -/
def p4At (s : List Char) : Option (List Char × List Char) :=
  match matchNum s with
  | none => none
  | some (g, r1) =>
    match matchMarker (r1.dropWhile isPySpace) with
    | some r3 => some (g, r3)
    | none => none

/-- Priority 5 of `extraire_surface`: `environ\s*(\d+)`, IGNORECASE. -/
def p5At (s : List Char) : Option (List Char) :=
  match matchLitCI ("environ".toList) s with
  | none => none
  | some r =>
    let p := takeDigitsPair (r.dropWhile isPySpace)
    if p.1 = [] then none else some p.1

/-- `re.search` on one of the scanners above: try every start position from
the left and return the first success. -/
def searchFrom {α : Type} (f : List Char → Option α) : List Char → Option α
  | [] => f []
  | c :: t =>
    match f (c :: t) with
    | some x => some x
    | none => searchFrom f t

/-- Fuel-driven worker for `re.findall`: collect non-overlapping leftmost
matches of the priority-4 pattern, resuming after each match. -/
def findallAux : ℕ → List Char → List (List Char)
  | 0, _ => []
  | Nat.succ fuel, s =>
    match p4At s with
    | some (g, rest) => g :: findallAux fuel rest
    | none =>
      match s with
      | [] => []
      | _ :: t => findallAux fuel t

/-- `re.findall(r"(\d+(?:[.,]\d+)?)\s*m[²2]", desc, re.IGNORECASE)`. -/
def findallSurface (s : List Char) : List (List Char) :=
  findallAux (s.length + 1) s

/-- Python `float(g.replace(',', '.'))` on a capture group of the patterns
above: digits, optionally a separator and fractional digits. -/
def parseNum (g : List Char) : ℚ :=
  let ip := g.takeWhile Char.isDigit
  match g.dropWhile Char.isDigit with
  | [] => (digitsToNat ip : ℚ)
  | _ :: fp => (digitsToNat ip : ℚ) + (digitsToNat fp : ℚ) / ((10 ^ fp.length : ℕ) : ℚ)

/-- Test for the studio hint: `'T0' in str(type_bien) or 'T1' in str(type_bien)`
(case sensitive, substring anywhere). -/
def hasT01 (t : String) : Bool :=
  listContains ("T0".toList) t.toList || listContains ("T1".toList) t.toList

/-- The minimum-size threshold of `extraire_surface` (lines 83-86):
12 for a (truthy) type mentioning T0 or T1, else 25.  A `none` argument
models Python `None` (falsy), the empty string is falsy too. -/
def seuil_min (type_bien : Option String) : ℚ :=
  match type_bien with
  | some t => if t ≠ "" ∧ hasT01 t then 12 else 25
  | none => 25

/-- Priorities 4 and 5 of `extraire_surface` (lines 109-127), reached when
priorities 1-3 did not return: among all area-marked numbers take the
largest one at or above the threshold, else the overall largest; with no
area-marked number at all, fall back to a bare `environ N` at or above the
threshold; else `None`. -/
def extractP4P5 (desc : List Char) (seuil : ℚ) : Option ℚ :=
  let ms := findallSurface desc
  if ms = [] then
    match searchFrom p5At desc with
    | some g => if seuil ≤ parseNum g then some (parseNum g) else none
    | none => none
  else
    let values := ms.map parseNum
    let valid := values.filter (fun v => decide (seuil ≤ v))
    if valid = [] then some (maxList values) else some (maxList valid)

/-- `extraire_surface(description, type_bien)` of `clean_data.py`
(lines 56-127): prioritized surface extraction from a free-text
description.  `none` for `description` models Python `None`
(coerced by `str()` to the digit-free text `"None"`). -/
def extraire_surface (description : Option String) (type_bien : Option String) : Option ℚ :=
  let desc := (pyStr description).toList
  let seuil := seuil_min type_bien
  match searchFrom p1At desc with
  | some g => some (parseNum g)
  | none =>
    match searchFrom p2At desc with
    | some g => some (parseNum g)
    | none =>
      match searchFrom p3At desc with
      | some g =>
        if seuil ≤ parseNum g then some (parseNum g) else extractP4P5 desc seuil
      | none => extractP4P5 desc seuil

/-! ### LocationParser (`extraire_ville`, `extraire_nom_departement`) -/

/-- Split off the segment before the first occurrence of `sep` (non-empty),
returning it with the remainder after the separator; `none` when `sep` does
not occur. -/
def splitFirst (sep : List Char) : List Char → Option (List Char × List Char)
  | [] => none
  | c :: cs =>
    if sep.isPrefixOf (c :: cs) then some ([], (c :: cs).drop sep.length)
    else
      match splitFirst sep cs with
      | some (pre, post) => some (c :: pre, post)
      | none => none

/-- Fuel-driven worker for `splitOnList`. -/
def splitOnListAux (sep : List Char) : ℕ → List Char → List (List Char)
  | 0, s => [s]
  | Nat.succ fuel, s =>
    match splitFirst sep s with
    | some (pre, post) => pre :: splitOnListAux sep fuel post
    | none => [s]

/-- Python `str.split(sep)` for a non-empty separator: the segments between
the non-overlapping left-to-right occurrences of `sep`. -/
def splitOnList (sep s : List Char) : List (List Char) :=
  splitOnListAux sep (s.length + 1) s

/-- `extraire_ville(localisation)` of `clean_data.py` (lines 130-149):
strip the leading dash/whitespace, then take the segment before the first
`" - "` separator. -/
def extraire_ville (localisation : Option String) : String :=
  let texte := pyStrip (lstripDashSpace (pyStr localisation))
  match splitOnList (" - ".toList) texte.toList with
  | p :: _ :: _ => pyStrip (String.mk p)
  | _ => texte

/-- `extraire_nom_departement(localisation)` of `clean_data.py`
(lines 152-174): the segment after the first `" - "`, with a parenthesized
code suffix stripped; empty when there is no separator. -/
def extraire_nom_departement (localisation : Option String) : String :=
  let texte := pyStrip (lstripDashSpace (pyStr localisation))
  match splitOnList (" - ".toList) texte.toList with
  | _ :: p :: _ =>
    let partie_dept := pyStrip (String.mk p)
    match splitOnList ("(".toList) partie_dept.toList with
    | q :: _ :: _ => pyStrip (String.mk q)
    | _ => partie_dept
  | _ => ""

/-! ### GeocodeQueryBuilder (`construire_query_geocodage`) -/

/-- ASCII lower-casing of a whole string (`str.lower()` restricted to the
ASCII letters that the city pattern mentions). -/
def lowerStr (s : String) : String := String.mk (s.toList.map asciiLower)

/-- Scanner for the arrondissement pattern
`(paris|lyon|marseille)\s*0*(\d+)` at the start of the (already
lower-cased) city text: the city word, optional whitespace, greedy zeros,
then at least one digit.  When all available digits are zeros, the
backtracking of `0*` leaves the last zero to `\d+`, so group 2 is `0`. -/
def cityAt (s : List Char) : Option (String × ℕ) :=
  let cont : String → List Char → Option (String × ℕ) := fun name r =>
    let r1 := r.dropWhile isPySpace
    let zs := r1.takeWhile (fun c => c == '0')
    let p := takeDigitsPair (r1.dropWhile (fun c => c == '0'))
    if p.1 ≠ [] then some (name, digitsToNat p.1)
    else if zs ≠ [] then some (name, 0)
    else none
  ((matchLitCI ("paris".toList) s).bind (cont "paris")) <|>
  ((matchLitCI ("lyon".toList) s).bind (cont "lyon")) <|>
  ((matchLitCI ("marseille".toList) s).bind (cont "marseille"))

/-- The `base_cp` postal-code table of `construire_query_geocodage`
(0 plays the role of `dict.get`'s default). -/
def base_cp (nom_ville : String) : ℕ :=
  if nom_ville = "paris" then 75000
  else if nom_ville = "lyon" then 69000
  else if nom_ville = "marseille" then 13000
  else 0

/-- `construire_query_geocodage(ville, nom_departement)` of `clean_data.py`
(lines 235-274): an arrondissement match anywhere in the lower-cased,
stripped city name yields `"{cp+arrondissement}, France"`; otherwise the
city is joined with the (non-empty) division name and the country. -/
def construire_query_geocodage (ville : String) (nom_departement : String) : String :=
  match searchFrom cityAt ((pyStrip (lowerStr ville)).toList) with
  | some (nom_ville, arrondissement) =>
    let cp := base_cp nom_ville
    if 0 < cp then toString (cp + arrondissement) ++ ", France"
    else if nom_departement ≠ "" then ville ++ ", " ++ nom_departement ++ ", France"
    else ville ++ ", France"
  | none =>
    if nom_departement ≠ "" then ville ++ ", " ++ nom_departement ++ ", France"
    else ville ++ ", France"

/-! ### CleaningPipeline (`nettoyer_donnees`) -/

/-- One row of the raw scraped table read by `clean_data.py`. -/
structure RawRecord where
  Departement : String
  URL : Option String
  Type_Bien : Option String
  Localisation : Option String
  Prix : Option ℚ
  Surface_m2 : Option ℚ
  Description : Option String
deriving DecidableEq

/-- One row of the cleaned table produced by `nettoyer_donnees`. -/
structure CleanRecord where
  Departement : String
  URL : Option String
  Type_Bien : Option String
  Localisation : Option String
  Prix : Option ℚ
  Surface_m2 : Option ℚ
  Description : Option String
  Ville : String
  Nom_Departement : String
  prix_m2 : Option ℚ
deriving DecidableEq

/-- Step 1 of `nettoyer_donnees` (lines 190-200): fill a missing surface
from the description via `extraire_surface`. -/
def fillSurface (r : RawRecord) : RawRecord :=
  if r.Surface_m2.isSome then r
  else { r with Surface_m2 := extraire_surface r.Description r.Type_Bien }

/-- Steps 3-4 of `nettoyer_donnees` (lines 212-223) on one retained row:
derive `Ville`, `Nom_Departement` and `prix_m2 = (Prix / Surface_m2).round(2)`
(null when the price is null, with no plausibility window on the surface). -/
def mkClean (r : RawRecord) : CleanRecord :=
  { Departement := r.Departement, URL := r.URL, Type_Bien := r.Type_Bien,
    Localisation := r.Localisation, Prix := r.Prix, Surface_m2 := r.Surface_m2,
    Description := r.Description,
    Ville := extraire_ville r.Localisation,
    Nom_Departement := extraire_nom_departement r.Localisation,
    prix_m2 :=
      match r.Prix, r.Surface_m2 with
      | some p, some s => some (pandasRound 2 (p / s))
      | _, _ => none }

/-- `nettoyer_donnees(df)` of `clean_data.py` (lines 177-228): surface
fill-in, drop of the rows still lacking a surface, city/division
derivation and price-per-m² computation. -/
def nettoyer_donnees (df : List RawRecord) : List CleanRecord :=
  (((df.map fillSurface).filter (fun r => r.Surface_m2.isSome)).map mkClean)

/-! ### GeocodingCache (`geocoder_villes`) and `immo_gps.py` -/

/-- Outcome of one `geolocator.geocode(query, timeout=10)` call: a location,
an empty result (`None`), or a raised exception (timeout/transport error). -/
inductive GeoResult where
  | found : ℚ → ℚ → GeoResult
  | notfound : GeoResult
  | gerror : GeoResult
deriving DecidableEq

/-- A cleaned row with the `latitude`/`longitude` columns attached by
`geocoder_villes`. -/
structure GeoRecord extends CleanRecord where
  latitude : Option ℚ
  longitude : Option ℚ
deriving DecidableEq

/-- Body of the cache-filling loop of `geocoder_villes` (lines 316-328) for
one unique key: build the query, call the geocoder, store the coordinate
pair, storing `(None, None)` on an empty result or an exception. -/
def geoLookup (geocode : String → GeoResult) (key : String × String) : Option ℚ × Option ℚ :=
  match geocode (construire_query_geocodage key.1 key.2) with
  | .found la lo => (some la, some lo)
  | .notfound => (none, none)
  | .gerror => (none, none)

/-- `cache.get(key, (None, None))` on the association list built by the
loop. -/
def cacheGet (cache : List ((String × String) × (Option ℚ × Option ℚ)))
    (k : String × String) : Option ℚ × Option ℚ :=
  match cache with
  | [] => (none, none)
  | (k₀, v) :: rest => if k₀ = k then v else cacheGet rest k

/-- `geocoder_villes(df)` of `clean_data.py` (lines 277-350), with the
external geocoder as a parameter.  Returns the rows with coordinates
attached, together with the log of external calls issued
(one `(key, query)` entry per call), which the source performs one by one
with a mandatory delay in between. -/
def geocoder_villes (geocode : String → GeoResult) (df : List CleanRecord) :
    List GeoRecord × List ((String × String) × String) :=
  let uniques := dedupFirst (df.map (fun r => (r.Ville, r.Nom_Departement)))
  let callLog := uniques.map (fun k => (k, construire_query_geocodage k.1 k.2))
  let cache := uniques.map (fun k => (k, geoLookup geocode k))
  (df.map (fun r =>
      let co := cacheGet cache (r.Ville, r.Nom_Departement)
      { toCleanRecord := r, latitude := co.1, longitude := co.2 }),
   callLog)

/-- One row of the CSV read by `immo_gps.py` (only the columns it uses). -/
structure ImmoRow where
  Ville : String
  Prix : Option ℚ
  Surface_m2 : Option ℚ
deriving DecidableEq

/-- An `immo_gps.py` row after the coordinate columns were split out of
`temp_coords`. -/
structure ImmoOut extends ImmoRow where
  latitude : ℚ
  longitude : ℚ
deriving DecidableEq

/-- `df['Ville'].map(cache_coordonnees)` for one row: the cached value for
the city, `none` both for a failed lookup (the loop stored `None`) and for
a city absent from the cache. -/
def villeCoords (cache : List (String × Option (ℚ × ℚ))) (v : String) : Option (ℚ × ℚ) :=
  match cache with
  | [] => none
  | (v₀, c) :: rest => if v₀ = v then c else villeCoords rest v

/-- `enrichir_csv_avec_gps` of `immo_gps.py` (lines 6-75), with the external
geocoder as a parameter.  The per-city loop stores `None` for an empty
result or an exception and keeps going, but the subsequent
`df['temp_coords'].apply(lambda x: x[0])` subscripts that `None` (the
`dropna` that would have removed those rows is commented out), so the merge
phase raises a `TypeError` as soon as any city is unresolved — modelled by
`Except.error`. -/
def enrichir_csv_avec_gps (geocode : String → GeoResult) (df : List ImmoRow) :
    Except String (List ImmoOut) :=
  let villes_uniques := dedupFirst (df.map (fun r => r.Ville))
  let cache : List (String × Option (ℚ × ℚ)) :=
    villes_uniques.map (fun v =>
      (v, match geocode (v ++ ", France") with
          | .found la lo => some (la, lo)
          | .notfound => none
          | .gerror => none))
  df.mapM (fun r =>
    match villeCoords cache r.Ville with
    | some c => Except.ok { toImmoRow := r, latitude := c.1, longitude := c.2 }
    | none => Except.error "TypeError: NoneType object is not subscriptable")

/-! ### Dashboard loading (`load_and_prepare_data` of `src/dashboard.py`)
and the legacy random jitter of `app.py` -/

/-- One row of `annonces_clean.csv` as read by the dashboard, after its
`pd.to_numeric(..., errors=coerce)` conversions. -/
structure CsvRow where
  Departement : String
  URL : Option String
  Ville : Option String
  Type_Bien : Option String
  Prix : Option ℚ
  Surface_m2 : Option ℚ
  latitude : Option ℚ
  longitude : Option ℚ
deriving DecidableEq

/-- A dashboard row after `load_and_prepare_data`: department normalized,
safe price per m², and the two jittered display coordinates. -/
structure VizRow where
  Departement : String
  URL : Option String
  Ville : Option String
  Type_Bien : Option String
  Prix : Option ℚ
  Surface_m2 : Option ℚ
  latitude : Option ℚ
  longitude : Option ℚ
  prix_m2_safe : Option ℚ
  lat_viz : ℚ
  lon_viz : ℚ
deriving DecidableEq

/-- `stable_jitter(val, key, scale)` of `src/dashboard.py` (lines 54-57):
md5 the key, read the first 8 hex digits as an integer, scale to `[0, 1)`,
map to a symmetric offset.  The md5 digest function is a parameter of the
embedding (it is a fixed pure function of the key). -/
def stable_jitter (md5hex : String → String) (val : ℚ) (key : String) (scale : ℚ) : ℚ :=
  let r : ℚ := (hexPrefixVal (md5hex key) : ℚ) / 4294967295
  val + (r - 1/2) * 2 * scale

/-- The transformation of one retained row inside `load_and_prepare_data`
(lines 39-65): `prix_m2_safe` under the `[15, 1000]` surface window,
`Departement` zero-filled to two digits, and the jittered coordinates with
the row key `str(URL)` for latitude and `str(URL) + "_x"` for longitude
(scale 0.004). -/
def prepareRow (md5hex : String → String) (r : CsvRow) : VizRow :=
  let key := pdStr r.URL
  { Departement := pyZfill 2 r.Departement,
    URL := r.URL, Ville := r.Ville, Type_Bien := r.Type_Bien,
    Prix := r.Prix, Surface_m2 := r.Surface_m2,
    latitude := r.latitude, longitude := r.longitude,
    prix_m2_safe :=
      match r.Surface_m2, r.Prix with
      | some s, some p => if 15 ≤ s ∧ s ≤ 1000 then some (pandasRound 0 (p / s)) else none
      | _, _ => none,
    lat_viz := stable_jitter md5hex (r.latitude.getD 0) key (1/250),
    lon_viz := stable_jitter md5hex (r.longitude.getD 0) (key ++ "_x") (1/250) }

/-- `load_and_prepare_data(csv_path)` of `src/dashboard.py` (lines 22-67) on
the parsed table (the URL column present, as written by the pipeline):
drop the rows missing latitude, longitude or price, then apply `prepareRow`
to each survivor. -/
def load_and_prepare_data (md5hex : String → String) (df : List CsvRow) : List VizRow :=
  (df.filter (fun r => r.latitude.isSome && r.longitude.isSome && r.Prix.isSome)).map
    (prepareRow md5hex)

/-- `random.uniform(a, b)` of `app.py`, modelled with the process-global
Mersenne-Twister stream made explicit as a list of pending draws in
`[0, 1)`: `a + (b - a) * random()`, consuming one draw. -/
def random_uniform (a b : ℚ) : List ℚ → ℚ × List ℚ
  | u :: rest => (a + (b - a) * u, rest)
  | [] => (a, [])

/-- `get_jitter(val)` of `app.py` (lines 34-35):
`val + random.uniform(-0.005, 0.005)` — the result depends on the global
random state, which is threaded explicitly here. -/
def get_jitter (val : ℚ) (rng : List ℚ) : ℚ × List ℚ :=
  let p := random_uniform (-(1/200)) (1/200) rng
  (val + p.1, p.2)

/-- `df['latitude'].apply(get_jitter)` of `app.py` (line 38): jitter a whole
coordinate column, threading the global random state through the rows. -/
def apply_jitter_column : List ℚ → List ℚ → List ℚ
  | [], _ => []
  | v :: vs, rng =>
    let p := get_jitter v rng
    p.1 :: apply_jitter_column vs p.2

/-! ### Concrete inputs used by witnesses and counterexamples -/

/-- A stand-in digest function used to instantiate the md5 parameter at a
concrete value in witnesses. -/
def md5c : String → String := fun _ => "00000000"

/-- Dashboard CSV row with department code `"6"`, a plausible surface and
all the columns the map needs. -/
def rowC1w : CsvRow :=
  ⟨"6", some "w1", some "Nice", none, some 100000, some 50, some 43, some 7⟩

/-- `rowC1w` after `load_and_prepare_data`. -/
def vizC1w : VizRow := prepareRow md5c rowC1w

/-- Raw row whose surface (5 m²) lies outside the plausible window. -/
def rawC1 : RawRecord := ⟨"75", none, none, none, some 100000, some 5, none⟩

/-- Raw row with a missing price but a present surface. -/
def rawC2 : RawRecord := ⟨"69", none, none, none, none, some 50, none⟩

/-- Raw row with both price and surface present. -/
def rawC2w : RawRecord := ⟨"69", none, none, none, some 90, some 30, none⟩

/-- `rawC2w` after the cleaning pipeline. -/
def cleanC2w : CleanRecord := mkClean rawC2w

/-- Raw row with the single-digit department code `"6"`. -/
def rawC5 : RawRecord := ⟨"6", none, none, none, some 1000, some 20, none⟩

/-- Dashboard CSV row for the jitter witness. -/
def rowW : CsvRow := ⟨"75", some "u1", some "Paris", none, some 100, none, some 48, some 2⟩

/-- The same listing as `rowW` re-scraped with a different price (same URL
key and the same true coordinates). -/
def rowW2 : CsvRow := ⟨"75", some "u1", some "Paris", none, some 200, none, some 48, some 2⟩

/-- An unrelated row present in the second run. -/
def rowOther : CsvRow := ⟨"06", some "u0", some "Nice", none, some 5, none, some 40, some 5⟩

/-- `rowW` after `load_and_prepare_data` in the first run. -/
def vizW : VizRow := prepareRow md5c rowW

/-- `rowW2` after `load_and_prepare_data` in the second run. -/
def vizW2 : VizRow := prepareRow md5c rowW2

/-- Geocoder behaviour for the error-handling scenario: Paris resolves,
every other query returns an empty result. -/
def geoOracleC4 : String → GeoResult := fun q =>
  if q = "Paris, France" ∨ q = "Paris, Ile-de-France, France" then .found 48 2 else .notfound

/-- The two `immo_gps.py` rows of the error-handling scenario. -/
def immoRowsC4 : List ImmoRow := [⟨"Paris", some 100, some 50⟩, ⟨"Atlantis", some 80, some 40⟩]

/-- Cleaned row for Paris in the error-handling scenario. -/
def cleanParisC4 : CleanRecord :=
  ⟨"75", none, none, none, some 100, some 50, none, "Paris", "Ile-de-France", some 2⟩

/-- Cleaned row whose city the geocoder cannot resolve. -/
def cleanAtlantisC4 : CleanRecord :=
  ⟨"99", none, none, none, some 80, some 40, none, "Atlantis", "Nowhere", some 2⟩

/-! ### Helper lemmas -/

/-- Numbers parsed from capture groups are non-negative. -/
lemma parseNum_nonneg (g : List Char) : 0 ≤ parseNum g := by
  unfold parseNum
  cases h : g.dropWhile Char.isDigit with
  | nil => simp
  | cons c fp =>
    exact add_nonneg (Nat.cast_nonneg _)
      (div_nonneg (Nat.cast_nonneg _) (Nat.cast_nonneg _))

/-- The initial accumulator is below a `foldl max`. -/
lemma le_foldl_max (xs : List ℚ) (a : ℚ) : a ≤ xs.foldl max a := by
  induction xs generalizing a with
  | nil => simp
  | cons y ys ih => exact le_trans (le_max_left a y) (ih (max a y))

/-- `maxList` of a list of non-negative numbers is non-negative. -/
lemma maxList_nonneg (l : List ℚ) (h : ∀ x ∈ l, 0 ≤ x) : 0 ≤ maxList l := by
  cases l with
  | nil => simp [maxList]
  | cons x xs => exact le_trans (h x (List.mem_cons_self x xs)) (le_foldl_max xs x)

/-- Elements of `dedupFirstAux seen l` are the elements of `l` not yet seen. -/
lemma mem_dedupFirstAux {α : Type} [DecidableEq α] (l : List α) :
    ∀ (seen : List α) (a : α), a ∈ dedupFirstAux seen l ↔ a ∈ l ∧ a ∉ seen := by
  induction l with
  | nil => intro seen a; simp [dedupFirstAux]
  | cons b l ih =>
    intro seen a
    simp only [dedupFirstAux]
    by_cases hb : b ∈ seen
    · rw [if_pos hb, ih seen a]
      simp only [List.mem_cons]
      constructor
      · rintro ⟨h1, h2⟩
        exact ⟨Or.inr h1, h2⟩
      · rintro ⟨h1 | h1, h2⟩
        · exact absurd (h1 ▸ hb) h2
        · exact ⟨h1, h2⟩
    · rw [if_neg hb]
      simp only [List.mem_cons, ih (b :: seen) a, List.mem_cons]
      constructor
      · rintro (rfl | ⟨h1, h2⟩)
        · exact ⟨Or.inl rfl, hb⟩
        · exact ⟨Or.inr h1, fun hc => h2 (Or.inr hc)⟩
      · rintro ⟨rfl | h1, h2⟩
        · exact Or.inl rfl
        · by_cases hab : a = b
          · exact Or.inl hab
          · exact Or.inr ⟨h1, fun hc => hc.elim hab h2⟩

/-- `dedupFirst` keeps exactly the elements of the input list. -/
lemma mem_dedupFirst {α : Type} [DecidableEq α] (l : List α) (a : α) :
    a ∈ dedupFirst l ↔ a ∈ l := by
  rw [dedupFirst, mem_dedupFirstAux]
  simp

/-- `dedupFirstAux` produces a duplicate-free list. -/
lemma dedupFirstAux_nodup {α : Type} [DecidableEq α] (l : List α) :
    ∀ seen : List α, (dedupFirstAux seen l).Nodup := by
  induction l with
  | nil => intro seen; simp [dedupFirstAux]
  | cons b l ih =>
    intro seen
    simp only [dedupFirstAux]
    by_cases hb : b ∈ seen
    · rw [if_pos hb]
      exact ih seen
    · rw [if_neg hb]
      refine List.nodup_cons.mpr ⟨?_, ih (b :: seen)⟩
      intro hmem
      exact ((mem_dedupFirstAux l (b :: seen) b).mp hmem).2 (List.mem_cons_self b seen)

/-- `dedupFirst` produces a duplicate-free list. -/
lemma dedupFirst_nodup {α : Type} [DecidableEq α] (l : List α) : (dedupFirst l).Nodup :=
  dedupFirstAux_nodup l []

/-- The length of `dedupFirst l` is the number of distinct elements of `l`. -/
lemma length_dedupFirst {α : Type} [DecidableEq α] (l : List α) :
    (dedupFirst l).length = l.toFinset.card := by
  have h1 : (dedupFirst l).toFinset = l.toFinset := by
    ext x
    simp [List.mem_toFinset, mem_dedupFirst]
  rw [← List.toFinset_card_of_nodup (dedupFirst_nodup l), h1]

/-- Length of a string built from a character list. -/
lemma length_mkStr (l : List Char) : (String.mk l).length = l.length := rfl

/-- `pyZfill 2` always yields at least two characters. -/
lemma two_le_length_pyZfill (s : String) : 2 ≤ (pyZfill 2 s).length := by
  unfold pyZfill
  cases hs : s.toList with
  | nil =>
    dsimp only
    decide
  | cons c rest =>
    dsimp only
    by_cases h1 : (c = '+' ∨ c = '-') ∧ (c :: rest).length < 2
    · rw [if_pos h1]
      have h12 := h1.2
      simp only [List.length_cons] at h12
      simp only [length_mkStr, List.length_cons, List.length_append, List.length_replicate]
      omega
    · rw [if_neg h1]
      by_cases h2 : (c :: rest).length < 2
      · rw [if_pos h2]
        simp only [List.length_cons] at h2
        simp only [length_mkStr, List.length_cons, List.length_append, List.length_replicate]
        omega
      · rw [if_neg h2]
        have hlen : s.length = (c :: rest).length := by
          show s.toList.length = _
          rw [hs]
        simp only [List.length_cons] at h2 hlen
        omega

/-- Membership in the dashboard loading result comes from a source row that
passed the `dropna` filter. -/
lemma mem_load_and_prepare {md5hex : String → String} {df : List CsvRow} {r : VizRow}
    (h : r ∈ load_and_prepare_data md5hex df) :
    ∃ s : CsvRow, s ∈ df ∧ (s.latitude.isSome && s.longitude.isSome && s.Prix.isSome) = true ∧
      r = prepareRow md5hex s := by
  unfold load_and_prepare_data at h
  obtain ⟨s, hs, rfl⟩ := List.mem_map.mp h
  exact ⟨s, (List.mem_filter.mp hs).1, (List.mem_filter.mp hs).2, rfl⟩

/-- Membership in the cleaning result comes from a (surface-filled) source
row that passed the surface filter. -/
lemma mem_nettoyer {df : List RawRecord} {r : CleanRecord}
    (h : r ∈ nettoyer_donnees df) :
    ∃ s : RawRecord, s ∈ df.map fillSurface ∧ s.Surface_m2.isSome = true ∧ r = mkClean s := by
  unfold nettoyer_donnees at h
  obtain ⟨s, hs, rfl⟩ := List.mem_map.mp h
  exact ⟨s, (List.mem_filter.mp hs).1, (List.mem_filter.mp hs).2, rfl⟩

/-- Values returned through the priority-4/5 fallback are non-negative. -/
lemma extractP4P5_nonneg (d : List Char) (seuil q : ℚ)
    (h : extractP4P5 d seuil = some q) : 0 ≤ q := by
  simp only [extractP4P5] at h
  by_cases hms : findallSurface d = []
  · rw [if_pos hms] at h
    cases h5 : searchFrom p5At d with
    | some g =>
      rw [h5] at h
      dsimp only at h
      by_cases hge : seuil ≤ parseNum g
      · rw [if_pos hge] at h
        rw [← Option.some.inj h]
        exact parseNum_nonneg g
      · rw [if_neg hge] at h
        cases h
    | none =>
      rw [h5] at h
      cases h
  · rw [if_neg hms] at h
    by_cases hv : ((findallSurface d).map parseNum).filter (fun v => decide (seuil ≤ v)) = []
    · rw [if_pos hv] at h
      rw [← Option.some.inj h]
      refine maxList_nonneg _ ?_
      intro x hx
      obtain ⟨g, _, rfl⟩ := List.mem_map.mp hx
      exact parseNum_nonneg g
    · rw [if_neg hv] at h
      rw [← Option.some.inj h]
      refine maxList_nonneg _ ?_
      intro x hx
      have hx2 := (List.mem_filter.mp hx).1
      obtain ⟨g, _, rfl⟩ := List.mem_map.mp hx2
      exact parseNum_nonneg g

/-! ### Claim theorems -/

/-- C1 (counterexample): the cleaning pipeline computes `prix_m2` with no
plausibility window at all — a retained row with surface 5 m² (far below
15) and price 100000 gets `prix_m2 = 20000`, not null, refuting the claim
that `price_per_area` (`prix_m2`) is null whenever `surface_m2` is outside
`[15, 1000]`. -/
theorem c1_prix_m2_no_window :
    (nettoyer_donnees [rawC1]).map (fun r => (r.Prix, r.Surface_m2, r.prix_m2.isSome)) =
      [(some 100000, some 5, true)] ∧ ¬ (15 ≤ (5 : ℚ)) := by
  constructor
  · rfl
  · norm_num

/-- C1 (amended): the `[15, 1000]` plausibility window governs the
dashboard's `prix_m2_safe`: any loaded row whose `prix_m2_safe` is non-null
has a present surface lying inside `[15, 1000]` (so the column is null for
every row whose surface is missing or outside the window). -/
theorem c1_prix_m2_safe_window (md5hex : String → String) (df : List CsvRow) (r : VizRow)
    (hmem : r ∈ load_and_prepare_data md5hex df)
    (hsome : r.prix_m2_safe.isSome = true) :
    ∃ s : ℚ, r.Surface_m2 = some s ∧ 15 ≤ s ∧ s ≤ 1000 := by
  obtain ⟨s0, _, _, rfl⟩ := mem_load_and_prepare hmem
  have hps : (prepareRow md5hex s0).prix_m2_safe =
      (match s0.Surface_m2, s0.Prix with
        | some s, some p => if 15 ≤ s ∧ s ≤ 1000 then some (pandasRound 0 (p / s)) else none
        | _, _ => none) := rfl
  rw [hps] at hsome
  cases hS : s0.Surface_m2 with
  | none =>
    rw [hS] at hsome
    cases hP : s0.Prix <;> simp [hP] at hsome
  | some s =>
    cases hP : s0.Prix with
    | none => rw [hS, hP] at hsome; simp at hsome
    | some p =>
      rw [hS, hP] at hsome
      dsimp only at hsome
      by_cases hw : 15 ≤ s ∧ s ≤ 1000
      · exact ⟨s, hS, hw.1, hw.2⟩
      · rw [if_neg hw] at hsome
        simp at hsome

/-- C1 (witness): a loaded row with surface 50 m² and price 100000 has a
non-null `prix_m2_safe`, and the theorem places its surface inside the
window. -/
theorem c1_witness : ∃ s : ℚ, vizC1w.Surface_m2 = some s ∧ 15 ≤ s ∧ s ≤ 1000 :=
  c1_prix_m2_safe_window md5c [rowC1w] vizC1w (List.Mem.head _) (by decide)

/-- C2 (counterexample): `nettoyer_donnees` drops only the rows without a
surface; a row with a missing price and surface 50 m² is retained with a
null price, refuting the claim that after the cleaning pipeline every
retained record has a non-null price. -/
theorem c2_price_kept_null :
    (nettoyer_donnees [rawC2]).map (fun r => r.Prix) = [none] ∧
      (nettoyer_donnees [rawC2]).length = 1 := ⟨rfl, rfl⟩

/-- C2 (amended): the cleaning pipeline guarantees a non-null surface for
every retained record; the non-null price (together with non-null
coordinates) is only enforced later, by the dashboard loading step's
`dropna`. -/
theorem c2_retained_nonnull (md5hex : String → String)
    (dfRaw : List RawRecord) (dfCsv : List CsvRow) (r₁ : CleanRecord) (r₂ : VizRow)
    (h₁ : r₁ ∈ nettoyer_donnees dfRaw) (h₂ : r₂ ∈ load_and_prepare_data md5hex dfCsv) :
    r₁.Surface_m2.isSome = true ∧
      (r₂.Prix.isSome = true ∧ r₂.latitude.isSome = true ∧ r₂.longitude.isSome = true) := by
  constructor
  · obtain ⟨s, _, hs, rfl⟩ := mem_nettoyer h₁
    exact hs
  · obtain ⟨s, _, hs, rfl⟩ := mem_load_and_prepare h₂
    simp only [Bool.and_eq_true] at hs
    exact ⟨hs.2, hs.1.1, hs.1.2⟩

/-- C2 (witness): concrete rows pass both stages and satisfy the
non-nullness facts. -/
theorem c2_witness :
    cleanC2w.Surface_m2.isSome = true ∧
      (vizC1w.Prix.isSome = true ∧ vizC1w.latitude.isSome = true ∧
        vizC1w.longitude.isSome = true) :=
  c2_retained_nonnull md5c [rawC2w] [rowC1w] cleanC2w vizC1w (List.Mem.head _) (List.Mem.head _)

/-- C5 (counterexample): the cleaning pipeline never touches the department
code — a record entering `nettoyer_donnees` with `Departement = "6"` leaves
it as the one-character string `"6"`, not a fixed-width zero-padded code,
refuting the claim that step 4 of the cleaning pipeline performs the
normalization. -/
theorem c5_clean_no_zfill :
    (nettoyer_donnees [rawC5]).map (fun r => r.Departement) = ["6"] ∧
      ("6" : String).length ≠ 2 := ⟨rfl, by decide⟩

/-- C5 (amended): the fixed-width zero-padded normalization of the division
code is performed by the dashboard loading step: every loaded row's
`Departement` is the `zfill(2)` of a source row's code and has at least two
characters. -/
theorem c5_dashboard_zfill (md5hex : String → String) (df : List CsvRow) (r : VizRow)
    (hmem : r ∈ load_and_prepare_data md5hex df) :
    ∃ r₀ : CsvRow, r₀ ∈ df ∧ r.Departement = pyZfill 2 r₀.Departement ∧
      2 ≤ r.Departement.length := by
  obtain ⟨s, hs, _, rfl⟩ := mem_load_and_prepare hmem
  exact ⟨s, hs, rfl, two_le_length_pyZfill _⟩

/-- C5 (witness): the dashboard pads the one-digit code `"6"` to `"06"`. -/
theorem c5_witness :
    ∃ r₀ : CsvRow, r₀ ∈ [rowC1w] ∧ vizC1w.Departement = pyZfill 2 r₀.Departement ∧
      2 ≤ vizC1w.Departement.length :=
  c5_dashboard_zfill md5c [rowC1w] vizC1w (List.Mem.head _)

/-- C3 (counterexample): in `app.py` the display coordinate is *not* a
function of the true coordinate and an identity key — `get_jitter` reads
the process-global random stream, so the same latitude jitters to two
different `lat_viz` values under two different global random states. -/
theorem c3_app_jitter_random :
    apply_jitter_column [4885/100] [0] ≠ apply_jitter_column [4885/100] [1/2] := by
  simp only [apply_jitter_column, get_jitter, random_uniform, ne_eq, List.cons.injEq, and_true]
  norm_num

/-- C3 (amended): in `src/dashboard.py` the claim holds — `lat_viz`/`lon_viz`
of a loaded row are determined by the row's URL key and true coordinates
alone (identical across separate runs over different tables, i.e. no global
random state), and the longitude jitter uses the derived key
`str(URL) + "_x"`, which differs from the latitude key. -/
theorem c3_stable_jitter_deterministic (md5hex : String → String)
    (df₁ df₂ : List CsvRow) (r₁ r₂ : VizRow)
    (h₁ : r₁ ∈ load_and_prepare_data md5hex df₁)
    (h₂ : r₂ ∈ load_and_prepare_data md5hex df₂)
    (hurl : r₁.URL = r₂.URL) (hlat : r₁.latitude = r₂.latitude)
    (hlon : r₁.longitude = r₂.longitude) :
    (r₁.lat_viz = r₂.lat_viz ∧ r₁.lon_viz = r₂.lon_viz) ∧
      pdStr r₁.URL ++ "_x" ≠ pdStr r₁.URL := by
  obtain ⟨s₁, _, _, rfl⟩ := mem_load_and_prepare h₁
  obtain ⟨s₂, _, _, rfl⟩ := mem_load_and_prepare h₂
  have hu : s₁.URL = s₂.URL := hurl
  have hla : s₁.latitude = s₂.latitude := hlat
  have hlo : s₁.longitude = s₂.longitude := hlon
  refine ⟨⟨?_, ?_⟩, ?_⟩
  · show stable_jitter md5hex (s₁.latitude.getD 0) (pdStr s₁.URL) (1/250) =
        stable_jitter md5hex (s₂.latitude.getD 0) (pdStr s₂.URL) (1/250)
    rw [hu, hla]
  · show stable_jitter md5hex (s₁.longitude.getD 0) (pdStr s₁.URL ++ "_x") (1/250) =
        stable_jitter md5hex (s₂.longitude.getD 0) (pdStr s₂.URL ++ "_x") (1/250)
    rw [hu, hlo]
  · intro hc
    have hlen := congrArg String.length hc
    rw [String.length_append] at hlen
    have hx : ("_x" : String).length = 2 := rfl
    omega

/-- C3 (witness): the same listing (same URL key, same true coordinates)
loaded in two different runs over two different tables gets bit-identical
display coordinates. -/
theorem c3_witness : vizW.lat_viz = vizW2.lat_viz ∧ vizW.lon_viz = vizW2.lon_viz :=
  (c3_stable_jitter_deterministic md5c [rowW] [rowOther, rowW2] vizW vizW2
    (List.Mem.head _) (List.Mem.tail _ (List.Mem.head _)) rfl rfl rfl).1

/-- C4: in `clean_data.py`'s `geocoder_villes` a failed lookup is recorded
as `(None, None)`, the rows sharing the key keep null coordinates and every
key is still processed — but in `immo_gps.py` the same situation makes the
merge phase subscript the stored `None` (`lambda x: x[0]`), raising a
`TypeError` that aborts the whole batch before any output is written. -/
theorem c4_failed_lookup :
    enrichir_csv_avec_gps geoOracleC4 immoRowsC4 =
      Except.error "TypeError: NoneType object is not subscriptable" ∧
    ((geocoder_villes geoOracleC4 [cleanParisC4, cleanAtlantisC4]).1.map
        (fun r => (r.latitude, r.longitude))) = [(some 48, some 2), (none, none)] ∧
    (geocoder_villes geoOracleC4 [cleanParisC4, cleanAtlantisC4]).2.length = 2 :=
  ⟨rfl, rfl, rfl⟩

/-- C7: in one run, `geocoder_villes` issues each external lookup for a
distinct `(Ville, Nom_Departement)` pair at most once — the call log has no
repeated key and its length equals the number of distinct pairs in the
input, however many rows share each pair. -/
theorem c7_one_call_per_key (geocode : String → GeoResult) (df : List CleanRecord) :
    ((geocoder_villes geocode df).2.map Prod.fst).Nodup ∧
      (geocoder_villes geocode df).2.length =
        (df.map (fun r => (r.Ville, r.Nom_Departement))).toFinset.card := by
  have h2 : (geocoder_villes geocode df).2 =
      (dedupFirst (df.map (fun r => (r.Ville, r.Nom_Departement)))).map
        (fun k => (k, construire_query_geocodage k.1 k.2)) := rfl
  constructor
  · rw [h2, List.map_map]
    have hcomp : (Prod.fst ∘ fun k : String × String =>
        (k, construire_query_geocodage k.1 k.2)) = id := rfl
    rw [hcomp, List.map_id]
    exact dedupFirst_nodup _
  · rw [h2, List.length_map, length_dedupFirst]

/-- C6: whenever the Carrez pattern (a number, the area marker, then the
`carrez` keyword) matches anywhere in the description, `extraire_surface`
returns exactly that captured number — unconditionally, for every
property-type hint, regardless of any other area values in the text. -/
theorem c6_carrez_priority (description type_bien : Option String) (g : List Char)
    (h : searchFrom p1At ((pyStr description).toList) = some g) :
    extraire_surface description type_bien = some (parseNum g) := by
  simp only [extraire_surface]
  rw [h]

/-- C6 (witness): the spec's own example — the Carrez value 45 wins over
the larger-or-smaller balcony value 8. -/
theorem c6_witness :
    extraire_surface (some "Apartment, 45 m² Carrez, balcony 8 m²") none = some 45 := by
  rw [c6_carrez_priority (some "Apartment, 45 m² Carrez, balcony 8 m²") none
    ("45".toList) (by decide)]
  decide

/-- C8: the size threshold is 12 exactly when the (truthy) type hint
mentions `T0` or `T1` and 25 otherwise, and when priorities 1-3 yield
nothing (no Carrez, no `habitable`, no qualifying introductory phrase at or
above the threshold) while area-marked numbers exist, `extraire_surface`
returns the largest area-marked number at or above the threshold, falling
back to the overall largest when none reaches it. -/
theorem c8_threshold_and_max (description type_bien : Option String)
    (h1 : searchFrom p1At ((pyStr description).toList) = none)
    (h2 : searchFrom p2At ((pyStr description).toList) = none)
    (h3 : ∀ g, searchFrom p3At ((pyStr description).toList) = some g →
      parseNum g < seuil_min type_bien)
    (h4 : findallSurface ((pyStr description).toList) ≠ []) :
    (type_bien = none → seuil_min type_bien = 25) ∧
    (∀ t, type_bien = some t →
      seuil_min type_bien = if t ≠ "" ∧ hasT01 t then 12 else 25) ∧
    extraire_surface description type_bien =
      (let values := (findallSurface ((pyStr description).toList)).map parseNum
       let valid := values.filter (fun v => decide (seuil_min type_bien ≤ v))
       if valid = [] then some (maxList values) else some (maxList valid)) := by
  refine ⟨fun ht => by rw [ht]; rfl, fun t ht => by rw [ht]; rfl, ?_⟩
  simp only [extraire_surface]
  rw [h1, h2]
  cases hp3 : searchFrom p3At ((pyStr description).toList) with
  | some g =>
    dsimp only
    rw [if_neg (not_le.mpr (h3 g hp3))]
    simp only [extractP4P5]
    rw [if_neg h4]
  | none =>
    dsimp only
    simp only [extractP4P5]
    rw [if_neg h4]

/-- C8 (witness): with no studio hint the threshold is 25, so among the
area values 8, 4 and 30 the extractor returns 30 (not the leftmost 8). -/
theorem c8_witness :
    extraire_surface (some "balcon 8 m2, cave 4 m2, salon 30 m2") none = some 30 := by
  have h := (c8_threshold_and_max (some "balcon 8 m2, cave 4 m2, salon 30 m2") none
    (by decide) (by decide)
    (by
      intro g hg
      rw [show searchFrom p3At ((pyStr (some "balcon 8 m2, cave 4 m2, salon 30 m2")).toList) =
        none from by decide] at hg
      exact absurd hg (by simp))
    (by decide)).2.2
  rw [h]
  decide

/-- C9: `extraire_surface` is total and pure — on a `None` description
(coerced by `str()` to the digit-free text `"None"`) it returns `None` for
every type hint, and whenever it returns a value at all, that value is a
finite non-negative number parsed from the text. -/
theorem c9_total_and_nonneg :
    (∀ type_bien, extraire_surface none type_bien = none) ∧
    (∀ description type_bien q, extraire_surface description type_bien = some q → 0 ≤ q) := by
  constructor
  · intro tb
    rfl
  · intro desc tb q h
    simp only [extraire_surface] at h
    cases h1 : searchFrom p1At ((pyStr desc).toList) with
    | some g =>
      rw [h1] at h
      rw [← Option.some.inj h]
      exact parseNum_nonneg g
    | none =>
      rw [h1] at h
      cases h2 : searchFrom p2At ((pyStr desc).toList) with
      | some g =>
        rw [h2] at h
        rw [← Option.some.inj h]
        exact parseNum_nonneg g
      | none =>
        rw [h2] at h
        cases h3 : searchFrom p3At ((pyStr desc).toList) with
        | some g =>
          rw [h3] at h
          dsimp only at h
          by_cases hge : seuil_min tb ≤ parseNum g
          · rw [if_pos hge] at h
            rw [← Option.some.inj h]
            exact parseNum_nonneg g
          · rw [if_neg hge] at h
            exact extractP4P5_nonneg _ _ _ h
        | none =>
          rw [h3] at h
          exact extractP4P5_nonneg _ _ _ h

/-- C9 (witness): the `None` coercion case and a value-returning case. -/
theorem c9_witness :
    extraire_surface none (some "Maison") = none ∧ (0 : ℚ) ≤ 30 :=
  ⟨c9_total_and_nonneg.1 (some "Maison"),
   c9_total_and_nonneg.2 (some "salon 30 m2") none 30 (by decide)⟩

/-- C10: the arrondissement special case of `construire_query_geocodage`
fires on a substring match anywhere in the lower-cased city text, and
whenever it fires the query is exactly the computed postal code plus the
country — `nom_departement` is omitted even when non-empty (illustrated by
`"Paris 8"`, which yields `"75008, France"` for every division name). -/
theorem c10_arrondissement_query :
    (∀ d : String, construire_query_geocodage "Paris 8" d = "75008, France") ∧
    (∀ (ville d : String) (nom : String) (arr : ℕ),
      searchFrom cityAt ((pyStrip (lowerStr ville)).toList) = some (nom, arr) →
      0 < base_cp nom →
      construire_query_geocodage ville d = toString (base_cp nom + arr) ++ ", France") := by
  constructor
  · intro d
    rfl
  · intro ville d nom arr h hcp
    simp only [construire_query_geocodage]
    rw [h]
    dsimp only
    rw [if_pos hcp]

/-- C10 (witness): the special case fires on `"marseille"` occurring in the
middle of the city string, and the non-empty division name is dropped. -/
theorem c10_witness :
    construire_query_geocodage "Le vieux Marseille 3" "Bouches-du-Rhone" = "13003, France" := by
  rw [c10_arrondissement_query.2 "Le vieux Marseille 3" "Bouches-du-Rhone" "marseille" 3
    (by decide) (by decide)]
  rfl
